import Mathlib

/-!
Verification of the portfolio page's data loading, caching and rendering
pipeline (`script.js`), as a shallow embedding in Lean.

Modelling conventions used throughout:
* JS strings are Lean `String`s; JS string helpers (`trim`, `split`,
  `charAt`, `slice`, `replace` with a string pattern) are translated below
  as `jsTrim`, `jsSplitChar`, `jsCharAt0`, `jsSlice1`, `jsReplaceFirst`.
* Untyped JSON fields that may be absent are `Option`s; JS truthiness of a
  string-valued field is `isTruthy`.
* `sessionStorage` under the single key `portfolio_data` is a
  `Storage := Option StoredVal`; `StoredVal.unparsable` models a stored
  string `JSON.parse` rejects.
* The DOM regions the renderers touch are records (`ProfileRegion`,
  `Grid`, the social anchor list), combined in `Dom`; `getElementById`
  targets are assumed present, per the page's fixed layout contract.
* The network is an oracle: `RawFetch` is the outcome of the underlying
  `fetch`+`response.json()` step, and an abort caused by the timeout timer
  surfaces as a `JsError` named "AbortError", exactly as in the browser.
* `CONFIG` values (`CACHE_DURATION`, `USE_SAMPLE_DATA`) are external
  configuration read at startup and are passed as parameters.
-/

namespace Portfolio

/-! ### Data model -/

structure Profile where
  name : Option String
  tagline : Option String
  description : Option String
deriving DecidableEq

/-- A project row; `tags` arrives either as a comma-joined string
(`Sum.inl`) or as an array of strings (`Sum.inr`), or is absent. -/
structure Project where
  title : String
  description : String
  image_url : String
  link_project : String
  tags : Option (Sum String (List String))
deriving DecidableEq

structure SocialLink where
  platform : String
  url : String
  icon : String
deriving DecidableEq

structure PortfolioData where
  profile : Option Profile
  projects : Option (List Project)
  social : Option (List SocialLink)
deriving DecidableEq

/-! ### JS string primitives -/

def isWs (c : Char) : Bool := c.isWhitespace

/-- Right-trim on character lists. -/
def trimRightList (l : List Char) : List Char := (l.reverse.dropWhile isWs).reverse

/-- Left-then-right trim on character lists. -/
def trimLeftRight (l : List Char) : List Char := trimRightList (l.dropWhile isWs)

/-- JS `String.prototype.trim`. -/
def jsTrim (s : String) : String := String.mk (trimLeftRight s.data)

/-- Helper for `jsSplitChar`: returns the current group and the later groups. -/
def jsSplitCharAux (sep : Char) : List Char → List Char × List (List Char)
  | [] => ([], [])
  | c :: rest =>
    let (g, gs) := jsSplitCharAux sep rest
    if c = sep then ([], g :: gs) else (c :: g, gs)

/-- JS `s.split(sep)` for a single-character separator: always returns at
least one (possibly empty) group. -/
def jsSplitChar (sep : Char) (s : String) : List String :=
  let (g, gs) := jsSplitCharAux sep s.data
  (g :: gs).map fun l => String.mk l

/-- JS `s.charAt(0)`: one-character string, or empty on an empty string. -/
def jsCharAt0 (s : String) : String := String.mk (s.data.take 1)

/-- JS `s.slice(1)`. -/
def jsSlice1 (s : String) : String := String.mk (s.data.drop 1)

/-- One step of JS `s.replace(pat, "")` with a string pattern: removes the
first occurrence of `pat`, scanning left to right. -/
def replaceFirstAux (pat : List Char) : List Char → List Char
  | [] => []
  | c :: rest =>
    if pat.isPrefixOf (c :: rest) then (c :: rest).drop pat.length
    else c :: replaceFirstAux pat rest

/-- JS `s.replace(pat, "")` for a string pattern. -/
def jsReplaceFirst (pat : String) (s : String) : String :=
  String.mk (replaceFirstAux pat.data s.data)

/-- Does `pat` occur as a contiguous substring? (Vocabulary for stating
properties of `jsReplaceFirst`.) -/
def containsSub (pat : List Char) : List Char → Bool
  | [] => pat.isEmpty
  | c :: rest => pat.isPrefixOf (c :: rest) || containsSub pat rest

/-- JS truthiness of a possibly-absent string field: absent and `""` are
falsy. -/
def isTruthy : Option String → Bool
  | none => false
  | some s => s != ""

/-! ### Cache store (`getCachedData` / `setCachedData`) -/

/-- The parsed form of the JSON record stored under `portfolio_data`. -/
structure CacheEnvelope where
  data : PortfolioData
  timestamp : Int
deriving DecidableEq

/-- What may sit under the `portfolio_data` key. `noData` models an
envelope serialized from an `undefined` data value (its `data` field is
dropped by `JSON.stringify`). -/
inductive StoredVal
  | unparsable
  | noData (timestamp : Int)
  | env (e : CacheEnvelope)
deriving DecidableEq

abbrev Storage := Option StoredVal

/-- `getCachedData()`: returns the cached data (or `none`) together with
the storage state after the call (the call deletes an expired entry). -/
def getCachedData (cacheDuration now : Int) : Storage → Option PortfolioData × Storage
  | none => (none, none)
  | some StoredVal.unparsable => (none, some StoredVal.unparsable)
  | some (StoredVal.noData ts) =>
    if now - ts < cacheDuration then (none, some (StoredVal.noData ts))
    else (none, none)
  | some (StoredVal.env e) =>
    if now - e.timestamp < cacheDuration then (some e.data, some (StoredVal.env e))
    else (none, none)

/-- `setCachedData(data)`: overwrites the key with a fresh envelope.
(The quota-exceeded case, which the source swallows, leaves storage
unchanged and is not modelled here.) -/
def setCachedData (d : PortfolioData) (now : Int) (_st : Storage) : Storage :=
  some (StoredVal.env ⟨d, now⟩)

/-! ### Fetcher (`fetchWithTimeout`) -/

structure JsError where
  name : String
  message : String
deriving DecidableEq

/-- The response envelope `{ success, data?, error? }` of the remote API. -/
structure Envelope where
  success : Bool
  data : Option PortfolioData
  error : Option String
deriving DecidableEq

/-- Outcome of the underlying `fetch` + `response.json()` step. An abort
fired by the timeout timer surfaces as an error named "AbortError". -/
inductive RawFetch
  | ok (env : Envelope)
  | err (e : JsError)
deriving DecidableEq

/-- `fetchWithTimeout`: converts an abort into a distinct timeout error and
lets every other error through unchanged. -/
def fetchWithTimeout : RawFetch → Except JsError Envelope
  | RawFetch.ok env => Except.ok env
  | RawFetch.err e =>
    if e.name = "AbortError" then Except.error ⟨"Error", "Request timeout"⟩
    else Except.error e

/-! ### Tag normalization (from `createProjectCard`) -/

/-- JS `s.split(',')` (at least one group, possibly empty). -/
def jsSplitComma (s : String) : List String := jsSplitChar ',' s

/-- The tag sequence used when building a project card:
`Array.isArray(project.tags) ? project.tags
  : (project.tags || '').split(',').map(t => t.trim()).filter(t => t)`. -/
def normalizeTags : Option (Sum String (List String)) → List String
  | some (Sum.inr l) => l
  | some (Sum.inl s) => ((jsSplitComma s).map jsTrim).filter (fun t => t != "")
  | none => ((jsSplitComma "").map jsTrim).filter (fun t => t != "")

/-! ### Project cards and the projects grid -/

/-- The inline placeholder SVG data URI (its exact text is irrelevant to
every property below; abbreviated). -/
def placeholderSvg : String := "data:image/svg+xml,(inline placeholder svg)"

/-- The attributes of one rendered project card that the pipeline sets:
`transitionDelay` in seconds, the eagerly-set placeholder `src`, the
deferred `data-src`, and the text content. -/
structure ProjectCard where
  delay : ℚ
  imageSrc : String
  imageDataSrc : String
  imageAlt : String
  linkHref : String
  title : String
  description : String
  tags : List String
deriving DecidableEq

/-- `createProjectCard(project, index)`. -/
def createProjectCard (p : Project) (index : Nat) : ProjectCard :=
  { delay := (index : ℚ) * (1 / 10)
    imageSrc := placeholderSvg
    imageDataSrc := p.image_url
    imageAlt := p.title
    linkHref := p.link_project
    title := p.title
    description := p.description
    tags := normalizeTags p.tags }

/-- A child of the projects grid container: a project card, or the
error-state box (message text, the reload button's onclick, its label). -/
inductive GridNode
  | card (c : ProjectCard)
  | errorBox (message : String) (buttonOnclick : String) (buttonLabel : String)
deriving DecidableEq

abbrev Grid := List GridNode

/-- The markup `showErrorState` writes into `projects-grid`. -/
def errorStateNodes : Grid :=
  [GridNode.errorBox "Tidak dapat memuat proyek. Silakan coba lagi nanti."
    "location.reload()" "Muat Ulang"]

/-- `showErrorState()`: replaces the grid content with the error box. -/
def showErrorState (_g : Grid) : Grid := errorStateNodes

/-- Does the grid contain a control that triggers a full page reload? -/
def hasReloadControl (g : Grid) : Bool :=
  g.any fun n =>
    match n with
    | GridNode.errorBox _ oc _ => oc = "location.reload()"
    | _ => false

/-- The `projects.forEach((project, index) => ...)` loop, appending one
card per project with its running index. -/
def buildCards : List Project → Nat → List GridNode
  | [], _ => []
  | p :: ps, i => GridNode.card (createProjectCard p i) :: buildCards ps (i + 1)

/-- `renderProjects(projects)`: no-op when projects are absent or empty,
otherwise clears the grid and appends one card per project. -/
def renderProjects : Option (List Project) → Grid → Grid
  | none, g => g
  | some ps, g => if ps.length = 0 then g else buildCards ps 0

/-! ### Profile renderer -/

/-- The DOM nodes `renderProfile` writes (all assumed present per the
page's layout contract). -/
structure ProfileRegion where
  heroName : String
  heroNameLoaded : Bool
  heroTitle : String
  heroTitleLoaded : Bool
  heroDescription : String
  heroDescriptionLoaded : Bool
  logoInitial : String
  logoName : String
  footerText : String
deriving DecidableEq

/-- The footer string `© ${year} ${name}. Hak Cipta Dilindungi.`. -/
def footerString (year : Int) (name : String) : String :=
  "© " ++ toString year ++ " " ++ name ++ ". Hak Cipta Dilindungi."

/-- `renderProfile(profile)` (with the current year passed explicitly). -/
def renderProfile (year : Int) : Option Profile → ProfileRegion → ProfileRegion
  | none, r => r
  | some p, r =>
    let name := p.name.getD ""
    let r1 := if isTruthy p.name then
        { r with heroName := name, heroNameLoaded := true } else r
    let r2 := if isTruthy p.tagline then
        { r1 with heroTitle := p.tagline.getD "", heroTitleLoaded := true } else r1
    let r3 := if isTruthy p.description then
        { r2 with heroDescription := p.description.getD "",
                  heroDescriptionLoaded := true } else r2
    let r4 := if isTruthy p.name then
        let nameParts := jsSplitChar ' ' name
        if nameParts.length > 1 then
          { r3 with logoInitial := jsCharAt0 (nameParts.headD ""),
                    logoName := String.intercalate " " nameParts.tail }
        else
          { r3 with logoInitial := jsCharAt0 name, logoName := jsSlice1 name }
      else r3
    if isTruthy p.name then { r4 with footerText := footerString year name } else r4

/-! ### Social links renderer -/

/-- One rendered anchor in the contact-links container. -/
structure SocialAnchor where
  href : String
  target : String
  relAttr : String
  iconKey : String
  label : String
deriving DecidableEq

/-- The own keys of the `icons` table, `default` included (the SVG bodies
themselves are opaque and identified by their key; `resolveIconKey`
returns the key that wins). -/
def iconKeys : List String :=
  ["email", "github", "linkedin", "twitter", "instagram", "whatsapp", "default"]

/-- `icons[link.icon] || icons[link.platform] || icons.default`. -/
def resolveIconKey (link : SocialLink) : String :=
  if link.icon ∈ iconKeys then link.icon
  else if link.platform ∈ iconKeys then link.platform
  else "default"

/-- The fixed platform → display-name table. -/
def platformLabels : String → Option String
  | "github" => some "GitHub"
  | "linkedin" => some "LinkedIn"
  | "twitter" => some "Twitter"
  | "instagram" => some "Instagram"
  | "whatsapp" => some "WhatsApp"
  | "website" => some "Website"
  | _ => none

/-- `getDisplayLabel(link)`. -/
def getDisplayLabel (link : SocialLink) : String :=
  if link.platform = "email" then jsReplaceFirst "mailto:" link.url
  else
    match platformLabels link.platform with
    | some lbl => lbl
    | none => if link.platform != "" then link.platform else "Link"

/-- `renderSocialLinks(social)`: no-op when absent or empty, otherwise
clears the container and appends one anchor per link. -/
def renderSocialLinks : Option (List SocialLink) → List SocialAnchor → List SocialAnchor
  | none, s => s
  | some links, s =>
    if links.length = 0 then s
    else links.map fun link =>
      { href := link.url
        target := if link.platform = "email" then "_self" else "_blank"
        relAttr := "noopener noreferrer"
        iconKey := resolveIconKey link
        label := getDisplayLabel link }

/-! ### Lazy image loader (`loadImage`) -/

/-- The state of an `img` element that `loadImage` touches: its `src`, the
deferred `data-src` attribute, and its class list. -/
structure ImgElement where
  src : String
  dataSrc : Option String
  classes : List String
deriving DecidableEq

/-- `classList.add`: appends the class only when not already present. -/
def addClass (c : String) (cs : List String) : List String :=
  if c ∈ cs then cs else cs ++ [c]

/-- `loadImage(img)`: a no-op when `img.dataset.src` is falsy (absent or
empty); otherwise copies it into `src`, removes the attribute, and marks
the element loaded. -/
def loadImage (img : ImgElement) : ImgElement :=
  match img.dataSrc with
  | none => img
  | some s =>
    if s = "" then img
    else { src := s, dataSrc := none, classes := addClass "loaded" img.classes }

/-! ### Data loader (`loadPortfolioData`) -/

/-- The three DOM regions the renderers mutate. -/
structure Dom where
  profileRegion : ProfileRegion
  projectsGrid : Grid
  socialRegion : List SocialAnchor
deriving DecidableEq

/-- The three renderer calls the loader performs on success. -/
def renderAll (d : PortfolioData) (year : Int) (dom : Dom) : Dom :=
  { profileRegion := renderProfile year d.profile dom.profileRegion
    projectsGrid := renderProjects d.projects dom.projectsGrid
    socialRegion := renderSocialLinks d.social dom.socialRegion }

/-- The default message of the `success: false` error path. -/
def defaultErrMsg : String := "Gagal memuat data"

/-- The observable outcome of one `loadPortfolioData()` run: the storage
state, the DOM, and the message of the error that reached the `catch`
handler (`none` when no error was thrown). -/
structure LoadResult where
  storage : Storage
  dom : Dom
  failure : Option String
deriving DecidableEq

/-- `loadPortfolioData()`. Parameters: the `USE_SAMPLE_DATA` flag and the
bundled sample dataset, the `CACHE_DURATION` configuration value, the
current epoch time and year, the outcome the network would produce, and
the initial storage and DOM states. -/
def loadPortfolioData (useSample : Bool) (sample : PortfolioData)
    (cacheDuration now year : Int) (raw : RawFetch) (st : Storage) (dom : Dom) :
    LoadResult :=
  if useSample then
    { storage := st, dom := renderAll sample year dom, failure := none }
  else
    match getCachedData cacheDuration now st with
    | (some d, st1) =>
      { storage := st1, dom := renderAll d year dom, failure := none }
    | (none, st1) =>
      match fetchWithTimeout raw with
      | Except.error e =>
        { storage := st1
          dom := { dom with projectsGrid := showErrorState dom.projectsGrid }
          failure := some e.message }
      | Except.ok env =>
        if env.success then
          match env.data with
          | some d =>
            { storage := setCachedData d now st1
              dom := renderAll d year dom
              failure := none }
          | none =>
            -- `data = data.data` is `undefined`: the cache write stores an
            -- envelope without a data field, then `data.profile` throws a
            -- TypeError that reaches the catch handler.
            { storage := some (StoredVal.noData now)
              dom := { dom with projectsGrid := showErrorState dom.projectsGrid }
              failure := some "TypeError" }
        else
          { storage := st1
            dom := { dom with projectsGrid := showErrorState dom.projectsGrid }
            failure := some (match env.error with
              | some m => if m = "" then defaultErrMsg else m
              | none => defaultErrMsg) }

/-! ### Supporting lemmas -/

theorem dropWhile_self (p : Char → Bool) (l : List Char) :
    (l.dropWhile p).dropWhile p = l.dropWhile p := by
  induction l with
  | nil => rfl
  | cons a l ih =>
    cases hpa : p a with
    | true => rw [List.dropWhile_cons_of_pos hpa]; exact ih
    | false =>
      rw [List.dropWhile_cons_of_neg (by simp [hpa]),
        List.dropWhile_cons_of_neg (by simp [hpa])]

theorem head_false_of_dropWhile_eq (p : Char → Bool) (l : List Char) (b : Char)
    (t : List Char) (h : l.dropWhile p = b :: t) : p b = false := by
  have hd := List.head?_dropWhile_not p l
  rw [h] at hd
  simpa using hd

theorem trimRightList_eq_append (l : List Char) :
    l = trimRightList l ++ (l.reverse.takeWhile isWs).reverse := by
  conv_lhs => rw [← List.reverse_reverse l,
    ← List.takeWhile_append_dropWhile (p := isWs) (l := l.reverse)]
  rw [List.reverse_append]
  rfl

theorem trimRightList_self (l : List Char) :
    trimRightList (trimRightList l) = trimRightList l := by
  unfold trimRightList
  rw [List.reverse_reverse, dropWhile_self]

theorem dropWhile_eq_self_of_head_false (p : Char → Bool) (m : List Char)
    (h : ∀ b t, m = b :: t → p b = false) : m.dropWhile p = m := by
  cases m with
  | nil => rfl
  | cons b t => exact List.dropWhile_cons_of_neg (by simp [h b t rfl])

theorem trimLeftRight_self (l : List Char) :
    trimLeftRight (trimLeftRight l) = trimLeftRight l := by
  unfold trimLeftRight
  have hdropA : (l.dropWhile isWs).dropWhile isWs = l.dropWhile isWs :=
    dropWhile_self isWs l
  have hhead : ∀ b t, trimRightList (l.dropWhile isWs) = b :: t → isWs b = false := by
    intro b t hbt
    have hfull : l.dropWhile isWs
        = b :: (t ++ ((l.dropWhile isWs).reverse.takeWhile isWs).reverse) := by
      conv_lhs => rw [trimRightList_eq_append (l.dropWhile isWs)]
      rw [hbt]
      simp
    exact head_false_of_dropWhile_eq isWs l b _ hfull
  rw [dropWhile_eq_self_of_head_false isWs _ hhead, trimRightList_self]

theorem jsTrim_idem (s : String) : jsTrim (jsTrim s) = jsTrim s :=
  congrArg String.mk (trimLeftRight_self s.data)

theorem isPrefixOf_append_self (p r : List Char) : p.isPrefixOf (p ++ r) = true := by
  induction p with
  | nil => simp [List.isPrefixOf]
  | cons c p ih => simp [List.isPrefixOf, ih]

theorem replaceFirstAux_append_self (p r : List Char) (hp : p ≠ []) :
    replaceFirstAux p (p ++ r) = r := by
  cases p with
  | nil => exact absurd rfl hp
  | cons c p =>
    rw [List.cons_append, replaceFirstAux,
      if_pos (by rw [← List.cons_append]; exact isPrefixOf_append_self (c :: p) r),
      ← List.cons_append]
    exact List.drop_left (c :: p) r

theorem replaceFirstAux_of_not_contains (p l : List Char)
    (h : containsSub p l = false) : replaceFirstAux p l = l := by
  induction l with
  | nil => rfl
  | cons c rest ih =>
    rw [containsSub, Bool.or_eq_false_iff] at h
    rw [replaceFirstAux, if_neg (by simp [h.1]), ih h.2]

theorem buildCards_getElem (ps : List Project) (i k : Nat) :
    (buildCards ps i)[k]? =
      ps[k]?.map fun p => GridNode.card (createProjectCard p (i + k)) := by
  induction ps generalizing i k with
  | nil => simp [buildCards]
  | cons p ps ih =>
    cases k with
    | zero => simp [buildCards]
    | succ k =>
      simp only [buildCards, List.getElem?_cons_succ, ih (i + 1) k]
      have : i + 1 + k = i + (k + 1) := by omega
      rw [this]

theorem buildCards_length (ps : List Project) (i : Nat) :
    (buildCards ps i).length = ps.length := by
  induction ps generalizing i with
  | nil => rfl
  | cons p ps ih => simp [buildCards, ih]

/-! ### Concrete values used to instantiate theorems -/

def emptyProfileRegion : ProfileRegion :=
  { heroName := "", heroNameLoaded := false, heroTitle := "", heroTitleLoaded := false
    heroDescription := "", heroDescriptionLoaded := false
    logoInitial := "", logoName := "", footerText := "" }

def emptyDom : Dom :=
  { profileRegion := emptyProfileRegion, projectsGrid := [], socialRegion := [] }

def sampleProject : Project :=
  { title := "T", description := "D", image_url := "img", link_project := "lnk"
    tags := some (Sum.inl "a, b ,c") }

/-! ### Claims -/

/-- Claim C3: the cache read deletes an expired envelope
(`now - timestamp >= CACHE_DURATION`) and returns absent; an absent or
unparsable stored value also yields absent; a fresh envelope yields the
enclosed data. -/
theorem getCachedData_spec (cacheDuration now : Int) (e : CacheEnvelope) :
    (cacheDuration ≤ now - e.timestamp →
      getCachedData cacheDuration now (some (StoredVal.env e)) = (none, none)) ∧
    getCachedData cacheDuration now none = (none, none) ∧
    (getCachedData cacheDuration now (some StoredVal.unparsable)).1 = none ∧
    (now - e.timestamp < cacheDuration →
      getCachedData cacheDuration now (some (StoredVal.env e))
        = (some e.data, some (StoredVal.env e))) := by
  refine ⟨fun h => ?_, rfl, rfl, fun h => ?_⟩
  · simp [getCachedData, show ¬(now - e.timestamp < cacheDuration) by omega]
  · simp [getCachedData, h]

/-- Witness for C3: a concrete expired envelope is deleted and read as
absent. -/
theorem getCachedData_spec_witness :
    getCachedData 10 20 (some (StoredVal.env ⟨⟨none, none, none⟩, 5⟩)) = (none, none) :=
  (getCachedData_spec 10 20 ⟨⟨none, none, none⟩, 5⟩).1 (by decide)

/-- Claim C4: an underlying fetch aborted by the timeout (surfacing as an
error named "AbortError") is re-signaled as a distinct error with message
"Request timeout"; every other transport failure propagates unchanged. -/
theorem fetchWithTimeout_spec (e : JsError) (env : Envelope) :
    (e.name = "AbortError" →
      fetchWithTimeout (RawFetch.err e)
        = Except.error ⟨"Error", "Request timeout"⟩) ∧
    (e.name ≠ "AbortError" → fetchWithTimeout (RawFetch.err e) = Except.error e) ∧
    fetchWithTimeout (RawFetch.ok env) = Except.ok env := by
  refine ⟨fun h => ?_, fun h => ?_, rfl⟩ <;> simp [fetchWithTimeout, h]

/-- Witness for C4: a concrete abort maps to the timeout error, a concrete
network error propagates unchanged. -/
theorem fetchWithTimeout_spec_witness :
    fetchWithTimeout (RawFetch.err ⟨"AbortError", "signal is aborted"⟩)
      = Except.error ⟨"Error", "Request timeout"⟩ ∧
    fetchWithTimeout (RawFetch.err ⟨"TypeError", "Failed to fetch"⟩)
      = Except.error ⟨"TypeError", "Failed to fetch"⟩ :=
  ⟨(fetchWithTimeout_spec ⟨"AbortError", "signal is aborted"⟩
      ⟨true, none, none⟩).1 rfl,
   (fetchWithTimeout_spec ⟨"TypeError", "Failed to fetch"⟩
      ⟨true, none, none⟩).2.1 (by decide)⟩

/-- Counterexample for C2: an array-typed `tags` field is used as-is, so
an untrimmed entry `" a "` and an empty entry `""` survive normalization,
contradicting the claim that every source representation yields trimmed,
non-empty tags. -/
theorem tags_array_not_normalized_cex :
    normalizeTags (some (Sum.inr [" a ", ""])) = [" a ", ""] ∧
    jsTrim " a " ≠ " a " ∧
    ("" : String) ∈ normalizeTags (some (Sum.inr [" a ", ""])) := by
  decide

/-- Claim C2 (amended): a string-typed `tags` field (and an absent one) is
normalized to trimmed, non-empty entries; an array-typed `tags` field is
used as-is. The spec's two examples hold: `"a, b ,c"` and
`["a","b","c"]` both give `["a","b","c"]`. -/
theorem normalizeTags_spec (s : String) (l : List String) :
    (∀ t ∈ normalizeTags (some (Sum.inl s)), jsTrim t = t ∧ t ≠ "") ∧
    normalizeTags (some (Sum.inr l)) = l ∧
    (∀ t ∈ normalizeTags none, jsTrim t = t ∧ t ≠ "") ∧
    normalizeTags (some (Sum.inl "a, b ,c")) = ["a", "b", "c"] ∧
    normalizeTags (some (Sum.inr ["a", "b", "c"])) = ["a", "b", "c"] := by
  refine ⟨?_, rfl, by decide, by decide, rfl⟩
  intro t ht
  simp only [normalizeTags, List.mem_filter, List.mem_map] at ht
  obtain ⟨⟨u, _, rfl⟩, hne⟩ := ht
  exact ⟨jsTrim_idem u, by simpa using hne⟩

/-- Witness for C2 (amended): the trimmed/non-empty property is evaluated
at the tag "a" coming from the spec's example string. -/
theorem normalizeTags_spec_witness :
    jsTrim "a" = "a" ∧ ("a" : String) ≠ "" :=
  (normalizeTags_spec "a, b ,c" []).1 "a" (by decide)

/-- Claim C9: writing portfolio data and reading it back strictly before
`CACHE_DURATION` has elapsed returns the written data. -/
theorem cache_roundtrip (cacheDuration t now : Int) (d : PortfolioData)
    (st : Storage) (h : now - t < cacheDuration) :
    getCachedData cacheDuration now (setCachedData d t st)
      = (some d, setCachedData d t st) := by
  simp [getCachedData, setCachedData, h]

/-- Witness for C9: a concrete write at time 5 read back at time 7 with a
duration of 10. -/
theorem cache_roundtrip_witness :
    getCachedData 10 7 (setCachedData ⟨none, none, none⟩ 5 none)
      = (some ⟨none, none, none⟩, setCachedData ⟨none, none, none⟩ 5 none) :=
  cache_roundtrip 10 5 7 ⟨none, none, none⟩ none (by decide)

/-- Claim C10: `loadImage` is idempotent — the first application removes
the deferred-source attribute, and an application on an element without it
is a no-op. -/
theorem loadImage_idempotent (img : ImgElement) :
    loadImage (loadImage img) = loadImage img := by
  obtain ⟨src, ds, cls⟩ := img
  cases ds with
  | none => rfl
  | some s =>
    by_cases hs : s = ""
    · subst hs; rfl
    · simp [loadImage, hs]

/-- Counterexample for C7: for platform "email", `replace` removes the
first occurrence of "mailto:" anywhere, so a URL that merely contains
"mailto:" without starting with it is changed, contradicting the claim
that a URL without the leading prefix is returned unchanged. -/
theorem getDisplayLabel_email_cex :
    getDisplayLabel { platform := "email", url := "xmailto:y", icon := "" } = "xy" ∧
    "xy" ≠ "xmailto:y" ∧
    "mailto:".data.isPrefixOf "xmailto:y".data = false := by
  decide

/-- Claim C7 (amended): for platform "email" the label is the URL with the
first occurrence of "mailto:" removed — in particular a leading "mailto:"
prefix is stripped, and a URL not containing "mailto:" at all is returned
unchanged; otherwise the fixed platform table entry, falling back to the
raw platform string, falling back to "Link". -/
theorem getDisplayLabel_spec (link : SocialLink) (rest : String) :
    (link.platform = "email" →
      (link.url = "mailto:" ++ rest → getDisplayLabel link = rest) ∧
      (containsSub "mailto:".data link.url.data = false →
        getDisplayLabel link = link.url)) ∧
    (link.platform ≠ "email" →
      (∀ lbl, platformLabels link.platform = some lbl →
        getDisplayLabel link = lbl) ∧
      (platformLabels link.platform = none → link.platform ≠ "" →
        getDisplayLabel link = link.platform) ∧
      (platformLabels link.platform = none → link.platform = "" →
        getDisplayLabel link = "Link")) := by
  constructor
  · intro hp
    constructor
    · intro hurl
      rw [getDisplayLabel, if_pos hp, hurl]
      show String.mk (replaceFirstAux "mailto:".data ("mailto:".data ++ rest.data)) = rest
      rw [replaceFirstAux_append_self "mailto:".data rest.data (by decide)]
    · intro hnc
      rw [getDisplayLabel, if_pos hp]
      show String.mk (replaceFirstAux "mailto:".data link.url.data) = link.url
      rw [replaceFirstAux_of_not_contains "mailto:".data link.url.data hnc]
  · intro hp
    refine ⟨fun lbl hlbl => ?_, fun hnone hne => ?_, fun hnone he => ?_⟩
    · rw [getDisplayLabel, if_neg hp, hlbl]
    · have hb : (link.platform != "") = true := by simpa [bne_iff_ne] using hne
      rw [getDisplayLabel, if_neg hp, hnone]
      simp [hb]
    · rw [getDisplayLabel, if_neg hp, hnone, he]
      rfl

/-- Witness for C7 (amended): the leading prefix of a concrete mailto URL
is stripped. -/
theorem getDisplayLabel_spec_witness :
    getDisplayLabel { platform := "email", url := "mailto:me@example.com", icon := "e" }
      = "me@example.com" :=
  ((getDisplayLabel_spec
      { platform := "email", url := "mailto:me@example.com", icon := "e" }
      "me@example.com").1 rfl).1 rfl

/-- Claim C6: `renderProjects` is a no-op on an absent or empty sequence;
on `n` projects it replaces the grid with exactly `n` cards in input
order, the card at index `i` carrying transition delay `i * 0.1` seconds,
so delays are strictly increasing. -/
theorem renderProjects_spec (ps : List Project) (g : Grid) (hne : ps ≠ []) :
    renderProjects none g = g ∧
    renderProjects (some []) g = g ∧
    (renderProjects (some ps) g).length = ps.length ∧
    (∀ i p, ps[i]? = some p →
      (renderProjects (some ps) g)[i]?
        = some (GridNode.card (createProjectCard p i)) ∧
      (createProjectCard p i).delay = (i : ℚ) * (1 / 10)) ∧
    (∀ i j p q, ps[i]? = some p → ps[j]? = some q → i < j →
      (createProjectCard p i).delay < (createProjectCard q j).delay) := by
  have hlen : ¬ ps.length = 0 := fun h => hne (List.length_eq_zero.mp h)
  have hrp : renderProjects (some ps) g = buildCards ps 0 := by
    simp [renderProjects, hlen]
  refine ⟨rfl, rfl, ?_, ?_, ?_⟩
  · rw [hrp, buildCards_length]
  · intro i p hp
    refine ⟨?_, rfl⟩
    rw [hrp, buildCards_getElem, hp]
    simp
  · intro i j p q _ _ hij
    show (i : ℚ) * (1 / 10) < (j : ℚ) * (1 / 10)
    have hq : (i : ℚ) < j := by exact_mod_cast hij
    have : (0 : ℚ) < 1 / 10 := by norm_num
    exact mul_lt_mul_of_pos_right hq this

/-- Witness for C6: two concrete projects yield a grid of exactly two
cards. -/
theorem renderProjects_spec_witness :
    (renderProjects (some [sampleProject, sampleProject]) []).length = 2 :=
  (renderProjects_spec [sampleProject, sampleProject] []
    (List.cons_ne_nil _ _)).2.2.1

/-- Modelled from the spec's words, for comparison with the code: the
tokens obtained by splitting a name on whitespace (the maximal runs of
non-whitespace characters). -/
def specWhitespaceTokens (s : String) : List String :=
  ((s.data.splitOnP isWs).map String.mk).filter (fun t => t != "")

/-- Counterexample for C5: the code splits on the space character only,
not on whitespace. The name "A\tB" has two whitespace-separated tokens, so
the claim's whitespace reading demands name-part "B" (the remaining tokens
joined), but `renderProfile` takes the no-space branch and produces
name-part "\tB". -/
theorem renderProfile_logo_cex :
    specWhitespaceTokens "A\tB" = ["A", "B"] ∧
    String.intercalate " " (specWhitespaceTokens "A\tB").tail = "B" ∧
    (renderProfile 2026 (some ⟨some "A\tB", none, none⟩)
        emptyProfileRegion).logoName = "\tB" ∧
    "\tB" ≠ "B" := by
  decide

/-- Claim C5 (amended): for a non-empty profile name, the logo label
splits the name on the space character (not on general whitespace): with
more than one part, the initial is the first character of the first part
and the name-part is the remaining parts joined; otherwise the initial is
the first character and the name-part the remainder. "Jane Doe" gives
"J"/"Doe" and "Cher" gives "C"/"her". -/
theorem renderProfile_logo_spec (year : Int) (p : Profile) (r : ProfileRegion)
    (name : String) (hname : p.name = some name) (hne : name ≠ "") :
    ((jsSplitChar ' ' name).length > 1 →
      (renderProfile year (some p) r).logoInitial
          = jsCharAt0 ((jsSplitChar ' ' name).headD "") ∧
      (renderProfile year (some p) r).logoName
          = String.intercalate " " (jsSplitChar ' ' name).tail) ∧
    (¬ (jsSplitChar ' ' name).length > 1 →
      (renderProfile year (some p) r).logoInitial = jsCharAt0 name ∧
      (renderProfile year (some p) r).logoName = jsSlice1 name) ∧
    (renderProfile year (some ⟨some "Jane Doe", none, none⟩) r).logoInitial = "J" ∧
    (renderProfile year (some ⟨some "Jane Doe", none, none⟩) r).logoName = "Doe" ∧
    (renderProfile year (some ⟨some "Cher", none, none⟩) r).logoInitial = "C" ∧
    (renderProfile year (some ⟨some "Cher", none, none⟩) r).logoName = "her" := by
  have hb : (name != "") = true := by simpa [bne_iff_ne] using hne
  have hpair :
      ((renderProfile year (some p) r).logoInitial,
        (renderProfile year (some p) r).logoName)
      = if (jsSplitChar ' ' name).length > 1
          then (jsCharAt0 ((jsSplitChar ' ' name).headD ""),
            String.intercalate " " (jsSplitChar ' ' name).tail)
          else (jsCharAt0 name, jsSlice1 name) := by
    simp only [renderProfile, hname, Option.getD_some, isTruthy, hb, if_true]
    split_ifs <;> rfl
  refine ⟨fun h => ?_, fun h => ?_, ?_, ?_, ?_, ?_⟩
  · rw [if_pos h] at hpair
    exact ⟨congrArg Prod.fst hpair, congrArg Prod.snd hpair⟩
  · rw [if_neg h] at hpair
    exact ⟨congrArg Prod.fst hpair, congrArg Prod.snd hpair⟩
  · rfl
  · rfl
  · rfl
  · rfl

/-- Witness for C5: evaluated at the profile name "Jane Doe" on a concrete
region. -/
theorem renderProfile_logo_spec_witness :
    (renderProfile 2026 (some ⟨some "Jane Doe", none, none⟩)
        emptyProfileRegion).logoInitial = "J" :=
  (renderProfile_logo_spec 2026 ⟨some "Jane Doe", none, none⟩ emptyProfileRegion
    "Jane Doe" rfl (by decide)).2.2.1

/-- Claim C1: on every failing load attempt (cache miss combined with a
fetch error — timeout included — or a `success: false` envelope) the
loader calls no renderer: the projects grid is replaced by the error-state
markup, which contains a reload control, and the profile and social
regions are left exactly as they were. -/
theorem loader_failure_unified_error_state (sample : PortfolioData)
    (cacheDuration now year : Int) (raw : RawFetch) (st : Storage) (dom : Dom)
    (hmiss : (getCachedData cacheDuration now st).1 = none)
    (hfail : (∃ e, raw = RawFetch.err e) ∨
      (∃ env, raw = RawFetch.ok env ∧ env.success = false)) :
    (loadPortfolioData false sample cacheDuration now year raw st dom).dom.projectsGrid
        = errorStateNodes ∧
    hasReloadControl
      (loadPortfolioData false sample cacheDuration now year raw st dom).dom.projectsGrid
        = true ∧
    (loadPortfolioData false sample cacheDuration now year raw st dom).dom.profileRegion
        = dom.profileRegion ∧
    (loadPortfolioData false sample cacheDuration now year raw st dom).dom.socialRegion
        = dom.socialRegion := by
  have hgc : getCachedData cacheDuration now st
      = (none, (getCachedData cacheDuration now st).2) := by
    rw [← hmiss]
  generalize (getCachedData cacheDuration now st).2 = st1 at hgc
  have hdom : (loadPortfolioData false sample cacheDuration now year raw st dom).dom
      = { dom with projectsGrid := errorStateNodes } := by
    rcases hfail with ⟨e, rfl⟩ | ⟨env, rfl, hsucc⟩
    · by_cases he : e.name = "AbortError" <;>
        simp [loadPortfolioData, hgc, fetchWithTimeout, he, showErrorState]
    · simp [loadPortfolioData, hgc, fetchWithTimeout, hsucc, showErrorState]
  rw [hdom]
  refine ⟨rfl, ?_, rfl, rfl⟩
  show hasReloadControl errorStateNodes = true
  decide

/-- Witness for C1: a concrete `success: false` response on an empty cache
leaves profile and social regions of a concrete DOM untouched and puts the
error box in the grid. -/
theorem loader_failure_unified_error_state_witness :
    (loadPortfolioData false ⟨none, none, none⟩ 1000 0 2026
        (RawFetch.ok ⟨false, none, some "x"⟩) none emptyDom).dom.projectsGrid
      = errorStateNodes :=
  (loader_failure_unified_error_state ⟨none, none, none⟩ 1000 0 2026
    (RawFetch.ok ⟨false, none, some "x"⟩) none emptyDom rfl
    (Or.inr ⟨⟨false, none, some "x"⟩, rfl, rfl⟩)).1

/-- Claim C8: on a `success: false` envelope the loader fails with the
envelope's (truthy) error message, or the default message when none is
provided, and performs no cache write; on `success: true` it extracts the
`data` field, writes it to the cache, and renders with it. -/
theorem loader_envelope_spec (sample : PortfolioData)
    (cacheDuration now year : Int) (st : Storage) (dom : Dom) (env : Envelope)
    (hmiss : (getCachedData cacheDuration now st).1 = none) :
    (∀ m, env.success = false → env.error = some m → m ≠ "" →
      (loadPortfolioData false sample cacheDuration now year
          (RawFetch.ok env) st dom).failure = some m ∧
      (loadPortfolioData false sample cacheDuration now year
          (RawFetch.ok env) st dom).storage
        = (getCachedData cacheDuration now st).2) ∧
    (env.success = false → env.error = none →
      (loadPortfolioData false sample cacheDuration now year
          (RawFetch.ok env) st dom).failure = some defaultErrMsg ∧
      (loadPortfolioData false sample cacheDuration now year
          (RawFetch.ok env) st dom).storage
        = (getCachedData cacheDuration now st).2) ∧
    (∀ d, env.success = true → env.data = some d →
      (loadPortfolioData false sample cacheDuration now year
          (RawFetch.ok env) st dom).storage = some (StoredVal.env ⟨d, now⟩) ∧
      (loadPortfolioData false sample cacheDuration now year
          (RawFetch.ok env) st dom).dom = renderAll d year dom ∧
      (loadPortfolioData false sample cacheDuration now year
          (RawFetch.ok env) st dom).failure = none) := by
  have hgc : getCachedData cacheDuration now st
      = (none, (getCachedData cacheDuration now st).2) := by
    rw [← hmiss]
  generalize (getCachedData cacheDuration now st).2 = st1 at hgc ⊢
  refine ⟨fun m hsucc herr hm => ?_, fun hsucc herr => ?_, fun d hsucc hd => ?_⟩
  · constructor <;>
      simp [loadPortfolioData, hgc, fetchWithTimeout, hsucc, herr, hm]
  · constructor <;>
      simp [loadPortfolioData, hgc, fetchWithTimeout, hsucc, herr]
  · refine ⟨?_, ?_, ?_⟩ <;>
      simp [loadPortfolioData, hgc, fetchWithTimeout, hsucc, hd, setCachedData]

/-- Witness for C8: a concrete `success: false, error: "x"` envelope fails
with message "x" and leaves the empty cache empty. -/
theorem loader_envelope_spec_witness :
    (loadPortfolioData false ⟨none, none, none⟩ 1000 0 2026
        (RawFetch.ok ⟨false, none, some "x"⟩) none emptyDom).failure = some "x" :=
  ((loader_envelope_spec ⟨none, none, none⟩ 1000 0 2026 none emptyDom
    ⟨false, none, some "x"⟩ rfl).1 "x" rfl rfl (by decide)).1
